import Mathlib

/-!
Shallow embedding of `src/main.py` of the `mcp_server` repository: an
expense-tracking MCP server backed by a single SQLite table `expenses`
with columns (id, amount, category, sub_category, date, created_at) and
five tool operations: `add_expense`, `listing_expenses`, `update_expense`,
`delete_expense`, `summarizing_expenses`.

Modelling conventions:
* The SQLite table is a `Store`: the list of rows in rowid (insertion)
  order together with the next AUTOINCREMENT id.
* SQLite REAL amounts are modelled as exact rationals (`Rat`); the claims
  under verification concern which rows are selected, aggregated and
  mutated, not floating-point rounding.
* SQLite TEXT comparison (BINARY collation, used by `BETWEEN` and
  `ORDER BY` on the `date` column) is modelled by Lean's lexicographic
  `String` order, which agrees with byte order on ASCII `YYYY-MM-DD` data.
* `datetime.utcnow().isoformat()` is an ambient clock value, passed to
  `add_expense` as an explicit `utcnow` argument.
* Each Python function returns a dict; each is modelled by a structure or
  an inductive with one constructor per distinct returned dict shape.
-/

namespace ExpenseServer

/-- One row of the `expenses` table (schema created in `init_db`,
`src/main.py` lines 24-33). -/
structure Expense where
  id : Int
  amount : Rat
  category : String
  sub_category : String
  date : String
  created_at : String
deriving DecidableEq, Repr

/-- The persistent state: rows in rowid (insertion) order, plus the next
AUTOINCREMENT id that SQLite will assign. -/
structure Store where
  rows : List Expense
  nextId : Int
deriving DecidableEq, Repr

/-- The freshly created empty table (`init_db`); SQLite AUTOINCREMENT
starts assigning ids at 1. -/
def init_db : Store := { rows := [], nextId := 1 }

/-- A declared parameter of an MCP tool: its name and whether it is
required (has no default in the Python signature). -/
structure ToolParam where
  name : String
  required : Bool
deriving DecidableEq, Repr

/-- The parameter list of the `add_expense` tool, transcribed from its
Python signature (`src/main.py` lines 45-50): `amount: float`,
`category: str`, `date: str` (no default), `sub_category: str = ""`. -/
def add_expense_params : List ToolParam :=
  [{ name := "amount", required := true },
   { name := "category", required := true },
   { name := "date", required := true },
   { name := "sub_category", required := false }]

/-- The dict returned by `add_expense` (`src/main.py` lines 68-76). -/
structure AddResult where
  status : String
  action : String
  expense_id : Int
  amount : Rat
  category : String
  sub_category : String
  date : String
deriving DecidableEq, Repr

/-- `add_expense` (`src/main.py` lines 44-76): INSERTs one row with the
supplied fields and `created_at := utcnow`, and returns the generated id
with the echoed fields.  In the Python signature `sub_category` defaults
to `""` and `date` has no default (see `add_expense_params`). -/
def add_expense (s : Store) (amount : Rat) (category : String) (date : String)
    (sub_category : String) (utcnow : String) : Store × AddResult :=
  let row : Expense :=
    { id := s.nextId, amount := amount, category := category,
      sub_category := sub_category, date := date, created_at := utcnow }
  ({ rows := s.rows ++ [row], nextId := s.nextId + 1 },
   { status := "success", action := "add", expense_id := s.nextId,
     amount := amount, category := category, sub_category := sub_category,
     date := date })

/-- The `ORDER BY date DESC` comparator: row `a` may precede row `b`
exactly when `b.date ≤ a.date` in lexicographic string order. -/
def dateDesc (a b : Expense) : Bool := decide (b.date ≤ a.date)

/-- The dict returned by `listing_expenses` (`src/main.py` lines 96-111). -/
structure ListResult where
  status : String
  action : String
  count : Nat
  expenses : List Expense
deriving DecidableEq, Repr

/-- `listing_expenses` (`src/main.py` lines 82-111): SELECTs every row
`ORDER BY date DESC`.  The SQL sort over the rowid-ordered scan is
modelled as a stable merge sort by the descending-date comparator. -/
def listing_expenses (s : Store) : ListResult :=
  let rows := s.rows.mergeSort dateDesc
  { status := "success", action := "list", count := rows.length,
    expenses := rows }

/-- The "Expense {id} not found" message built by `update_expense` and
`delete_expense`. -/
def notFoundMsg (expense_id : Int) : String :=
  "Expense " ++ toString expense_id ++ " not found"

/-- The dicts returned by `update_expense`: the two error dicts (lines
130-134 and 154-158 of `src/main.py`) both carry `status = "error"` and a
message; the success dict (lines 169-174) carries the id and the list of
SET clauses. -/
inductive UpdateResult where
  | error (message : String)
  | success (expense_id : Int) (updated_fields : List String)
deriving DecidableEq, Repr

/-- `update_expense` (`src/main.py` lines 116-174): first SELECTs the row
by id and returns the not-found error if absent; then collects a SET
clause for each non-`None` argument; if no clause was collected returns
the no-fields error; otherwise executes
`UPDATE expenses SET ... WHERE id = ?`. -/
def update_expense (s : Store) (expense_id : Int)
    (amount : Option Rat) (category : Option String)
    (sub_category : Option String) (date : Option String) :
    Store × UpdateResult :=
  if (s.rows.find? fun r => r.id == expense_id).isNone then
    (s, .error (notFoundMsg expense_id))
  else
    let fields :=
      (if amount.isSome then ["amount = ?"] else []) ++
      (if category.isSome then ["category = ?"] else []) ++
      (if sub_category.isSome then ["sub_category = ?"] else []) ++
      (if date.isSome then ["date = ?"] else [])
    if fields.isEmpty then
      (s, .error "No fields provided to update")
    else
      let rows := s.rows.map fun r =>
        if r.id == expense_id then
          { r with
            amount := amount.getD r.amount,
            category := category.getD r.category,
            sub_category := sub_category.getD r.sub_category,
            date := date.getD r.date }
        else r
      ({ s with rows := rows }, .success expense_id fields)

/-- The dicts returned by `delete_expense` (`src/main.py` lines 187-191
and 199-204). -/
inductive DeleteResult where
  | error (message : String)
  | success (expense_id : Int) (message : String)
deriving DecidableEq, Repr

/-- `delete_expense` (`src/main.py` lines 179-204): SELECTs the row by id
and returns the not-found error if absent; otherwise DELETEs it. -/
def delete_expense (s : Store) (expense_id : Int) : Store × DeleteResult :=
  if (s.rows.find? fun r => r.id == expense_id).isNone then
    (s, .error (notFoundMsg expense_id))
  else
    ({ s with rows := s.rows.filter fun r => r.id != expense_id },
     .success expense_id "Expense deleted successfully")

/-- The SQL `date BETWEEN start AND stop` predicate: the inclusive closed
range under lexicographic string comparison. -/
def between (d lo hi : String) : Bool := decide (lo ≤ d) && decide (d ≤ hi)

/-- SQL `SUM(amount)`: NULL (here `none`) over the empty selection,
otherwise the sum. -/
def sqlSum (l : List Rat) : Option Rat :=
  if l.isEmpty then none else some l.sum

/-- The Python coalescing `total = cursor.fetchone()[0] or 0.0`: `None`
becomes `0.0`, and any falsy number (that is, `0.0` itself) also becomes
`0.0`; any other number passes through. -/
def pyOrZero (x : Option Rat) : Rat :=
  match x with
  | none => 0
  | some v => if v = 0 then 0 else v

/-- The dict returned by `summarizing_expenses` (`src/main.py` lines
228-234). -/
structure SummaryResult where
  status : String
  action : String
  start_date : String
  end_date : String
  total_expense : Rat
deriving DecidableEq, Repr

/-- `summarizing_expenses` (`src/main.py` lines 210-234):
`SELECT SUM(amount) FROM expenses WHERE date BETWEEN ? AND ?`, with the
NULL sum coalesced through Python `or 0.0`. -/
def summarizing_expenses (s : Store) (start_date end_date : String) :
    SummaryResult :=
  let matching := s.rows.filter fun r => between r.date start_date end_date
  { status := "success", action := "summary", start_date := start_date,
    end_date := end_date,
    total_expense := pyOrZero (sqlSum (matching.map fun r => r.amount)) }

/-! ### Helper lemmas (shared) -/

/-- Coalescing the SQL sum through Python truthiness gives exactly the
plain sum: the NULL case arises only for the empty list, whose sum is `0`,
and a falsy `0.0` is replaced by the equal value `0.0`. -/
theorem pyOrZero_sqlSum (l : List Rat) : pyOrZero (sqlSum l) = l.sum := by
  simp only [sqlSum, pyOrZero]
  by_cases h : l.isEmpty
  · simp [h, List.isEmpty_iff.mp h]
  · simp only [if_neg h]
    by_cases h0 : l.sum = 0 <;> simp [h0]

/-- The not-found message never coincides with the no-fields message:
their first characters differ. -/
theorem notFoundMsg_ne_noFields (i : Int) :
    notFoundMsg i ≠ "No fields provided to update" := by
  intro h
  have hd : (notFoundMsg i).data.head? = some 'E' := by
    simp [notFoundMsg, String.data_append]
  rw [h] at hd
  simp at hd

/-- The existence check of `update_expense`/`delete_expense` fails (the
SELECT fetches nothing) exactly when no stored row has the requested id. -/
theorem find_isNone_iff (s : Store) (expense_id : Int) :
    (s.rows.find? fun r => r.id == expense_id).isNone = true ↔
      ∀ r ∈ s.rows, r.id ≠ expense_id := by
  rw [Option.isNone_iff_eq_none, List.find?_eq_none]
  simp

/-! ### Claims -/

/-- Claim C1: for every store state and every pair of date strings, the
total returned by `summarizing_expenses` is the sum of the amounts of
exactly the records whose date lies in the inclusive lexicographic range;
in particular a store with a single record dated `d`, summarized over
`[d, d]`, yields exactly that record's amount. -/
theorem summarize_total_eq_range_sum :
    (∀ (s : Store) (start_date end_date : String),
      (summarizing_expenses s start_date end_date).total_expense
        = ((s.rows.filter fun r =>
              decide (start_date ≤ r.date) && decide (r.date ≤ end_date)).map
            fun r => r.amount).sum) ∧
    (∀ (id nextId : Int) (amount : Rat) (category sub_category d created : String),
      (summarizing_expenses
        { rows := [{ id := id, amount := amount, category := category,
                     sub_category := sub_category, date := d,
                     created_at := created }],
          nextId := nextId } d d).total_expense = amount) := by
  constructor
  · intro s start_date end_date
    simpa [summarizing_expenses, between] using pyOrZero_sqlSum _
  · intro id nextId amount category sub_category d created
    simp [summarizing_expenses, between, pyOrZero_sqlSum]

/-- Claim C5: whenever no stored record's date lies in the queried range,
`summarizing_expenses` returns a success result with total `0`. -/
theorem summarize_no_match_zero (s : Store) (start_date end_date : String)
    (h : ∀ r ∈ s.rows, ¬(start_date ≤ r.date ∧ r.date ≤ end_date)) :
    (summarizing_expenses s start_date end_date).total_expense = 0 ∧
    (summarizing_expenses s start_date end_date).status = "success" := by
  have hfilter : s.rows.filter (fun r => between r.date start_date end_date) = [] := by
    rw [List.filter_eq_nil_iff]
    intro r hr
    simpa [between] using h r hr
  simp [summarizing_expenses, hfilter, pyOrZero, sqlSum]

/-- Concrete instance of claim C5 at the empty store. -/
theorem summarize_no_match_zero_witness :
    (summarizing_expenses init_db "2024-01-01" "2024-12-31").total_expense = 0 ∧
    (summarizing_expenses init_db "2024-01-01" "2024-12-31").status = "success" :=
  summarize_no_match_zero init_db "2024-01-01" "2024-12-31"
    (by intro r hr; simp [init_db] at hr)

/-- Claim C10: calling `update_expense` with an id absent from the table
and zero provided fields yields the not-found error (the existence check
runs before the empty-field-set check), and that error is distinct from
the no-fields error. -/
theorem update_missing_id_zero_fields_not_found (s : Store) (expense_id : Int)
    (h : ∀ r ∈ s.rows, r.id ≠ expense_id) :
    update_expense s expense_id none none none none
      = (s, .error (notFoundMsg expense_id)) ∧
    notFoundMsg expense_id ≠ "No fields provided to update" := by
  refine ⟨?_, notFoundMsg_ne_noFields expense_id⟩
  have hf := (find_isNone_iff s expense_id).mpr h
  simp [update_expense, hf]

/-- Concrete instance of claim C10 at the empty store with id 1. -/
theorem update_missing_id_zero_fields_not_found_witness :
    update_expense init_db 1 none none none none
      = (init_db, .error (notFoundMsg 1)) ∧
    notFoundMsg 1 ≠ "No fields provided to update" :=
  update_missing_id_zero_fields_not_found init_db 1
    (by intro r hr; simp [init_db] at hr)

/-- Claim C4: for every id absent from the table, `update_expense` (with
any field arguments) and `delete_expense` both return the not-found error
and leave the stored table unchanged. -/
theorem missing_id_not_found_unchanged (s : Store) (expense_id : Int)
    (amount : Option Rat) (category sub_category date : Option String)
    (h : ∀ r ∈ s.rows, r.id ≠ expense_id) :
    update_expense s expense_id amount category sub_category date
      = (s, .error (notFoundMsg expense_id)) ∧
    delete_expense s expense_id = (s, .error (notFoundMsg expense_id)) := by
  have hf := (find_isNone_iff s expense_id).mpr h
  constructor
  · simp [update_expense, hf]
  · simp [delete_expense, hf]

/-- Concrete instance of claim C4 at the empty store with id 7. -/
theorem missing_id_not_found_unchanged_witness :
    update_expense init_db 7 (some 3) none none none
      = (init_db, .error (notFoundMsg 7)) ∧
    delete_expense init_db 7 = (init_db, .error (notFoundMsg 7)) :=
  missing_id_not_found_unchanged init_db 7 (some 3) none none none
    (by intro r hr; simp [init_db] at hr)

/-- Claim C3 counterexample: on the empty store with id 1 and zero
provided fields, `update_expense` returns the not-found error, which is
not the no-fields error — so the claim does not hold for every id. -/
theorem update_zero_fields_missing_id_counterexample :
    (update_expense init_db 1 none none none none).snd
      = .error (notFoundMsg 1) ∧
    UpdateResult.error (notFoundMsg 1)
      ≠ UpdateResult.error "No fields provided to update" := by
  constructor
  · rfl
  · intro h
    exact notFoundMsg_ne_noFields 1 (UpdateResult.error.injEq .. ▸ h)

/-- Claim C3 (amended): for every store state and every id present in the
table, calling `update_expense` with all four optional fields absent
returns the no-fields error and leaves the stored table unchanged. -/
theorem update_zero_fields_existing_id (s : Store) (expense_id : Int)
    (h : ∃ r ∈ s.rows, r.id = expense_id) :
    update_expense s expense_id none none none none
      = (s, .error "No fields provided to update") := by
  have hf : (s.rows.find? fun r => r.id == expense_id).isNone = false := by
    rcases h with ⟨r, hr, hid⟩
    rcases hfind : s.rows.find? fun r => r.id == expense_id with _ | r₂
    · rw [List.find?_eq_none] at hfind
      exact absurd hid (by simpa using hfind r hr)
    · simp [hfind]
  simp [update_expense, hf]

/-- Concrete instance of amended claim C3: a one-row store, id 1. -/
theorem update_zero_fields_existing_id_witness :
    update_expense
      { rows := [{ id := 1, amount := 10, category := "food",
                   sub_category := "", date := "2024-01-15",
                   created_at := "t" }], nextId := 2 }
      1 none none none none
      = ({ rows := [{ id := 1, amount := 10, category := "food",
                      sub_category := "", date := "2024-01-15",
                      created_at := "t" }], nextId := 2 },
         .error "No fields provided to update") :=
  update_zero_fields_existing_id _ 1
    ⟨{ id := 1, amount := 10, category := "food", sub_category := "",
       date := "2024-01-15", created_at := "t" }, by simp, rfl⟩

/-- The row transformation performed by a successful
`UPDATE expenses SET ... WHERE id = ?`: each provided field is
overwritten, each absent field keeps its stored value, on every row whose
id matches. -/
def overwrite (expense_id : Int) (amount : Option Rat)
    (category sub_category date : Option String) (r : Expense) : Expense :=
  if r.id = expense_id then
    { r with
      amount := amount.getD r.amount,
      category := category.getD r.category,
      sub_category := sub_category.getD r.sub_category,
      date := date.getD r.date }
  else r

/-- In every branch of `update_expense` — not-found, no-fields, and
success — the resulting table is the pointwise `overwrite` of the old
one.  (In the two error branches `overwrite` fixes every row: either no
row's id matches, or every field argument is `none`.) -/
theorem update_rows_eq_map (s : Store) (expense_id : Int)
    (amount : Option Rat) (category sub_category date : Option String) :
    (update_expense s expense_id amount category sub_category date).fst.rows
      = s.rows.map (overwrite expense_id amount category sub_category date) := by
  by_cases hf : (s.rows.find? fun r => r.id == expense_id).isNone = true
  · have hnone := (find_isNone_iff s expense_id).mp hf
    have hfix : ∀ r ∈ s.rows,
        overwrite expense_id amount category sub_category date r = r := by
      intro r hr
      simp [overwrite, hnone r hr]
    rw [List.map_congr_left hfix, List.map_id']
    simp [update_expense, hf]
  · rcases amount with _ | a <;> rcases category with _ | c <;>
      rcases sub_category with _ | sc <;> rcases date with _ | d <;>
    first
      | (have hfix : ∀ r ∈ s.rows,
             overwrite expense_id none none none none r = r := by
           intro r _
           unfold overwrite
           split <;> rfl
         rw [List.map_congr_left hfix, List.map_id']
         simp [update_expense, hf])
      | simp [update_expense, hf, overwrite]

/-- Claim C8: for every store, id and subset of the four optional fields,
the table after `update_expense` is the old table with, on each row whose
id matches, exactly the supplied fields overwritten by the supplied
values and every absent field retaining its previous stored value (the
`overwrite` transformation); rows with other ids are untouched. -/
theorem update_overwrites_exactly_supplied (s : Store) (expense_id : Int)
    (amount : Option Rat) (category sub_category date : Option String) :
    (update_expense s expense_id amount category sub_category date).fst.rows
      = s.rows.map fun r =>
          if r.id = expense_id then
            { r with
              amount := amount.getD r.amount,
              category := category.getD r.category,
              sub_category := sub_category.getD r.sub_category,
              date := date.getD r.date }
          else r :=
  update_rows_eq_map s expense_id amount category sub_category date

/-- Claim C9: `created_at` is set once at insert time and never changed
afterwards — `update_expense` preserves every row's `created_at` (it is
not among the updatable fields), `add_expense` stamps the new row with
the insert-time clock and leaves existing rows untouched,
`delete_expense` only removes rows, and an update supplying all four of
amount, category, sub_category and date overwrites exactly those four
while keeping id and `created_at`. -/
theorem created_at_immutable_others_mutable :
    (∀ (s : Store) (expense_id : Int) (amount : Option Rat)
        (category sub_category date : Option String),
      ((update_expense s expense_id amount category sub_category date).fst.rows.map
          fun r => r.created_at)
        = s.rows.map fun r => r.created_at) ∧
    (∀ (s : Store) (amount : Rat) (category date sub_category utcnow : String),
      (add_expense s amount category date sub_category utcnow).fst.rows
        = s.rows ++ [{ id := s.nextId, amount := amount, category := category,
                       sub_category := sub_category, date := date,
                       created_at := utcnow }]) ∧
    (∀ (s : Store) (expense_id : Int),
      (delete_expense s expense_id).fst.rows.Sublist s.rows) ∧
    (∀ (s : Store) (expense_id : Int) (a : Rat) (c sc d : String),
      (update_expense s expense_id (some a) (some c) (some sc) (some d)).fst.rows
        = s.rows.map fun r =>
            if r.id = expense_id then
              { id := r.id, amount := a, category := c, sub_category := sc,
                date := d, created_at := r.created_at }
            else r) := by
  refine ⟨?_, ?_, ?_, ?_⟩
  · intro s expense_id amount category sub_category date
    rw [update_rows_eq_map, List.map_map]
    apply List.map_congr_left
    intro r _
    unfold overwrite
    simp only [Function.comp_apply]
    split <;> rfl
  · intro s amount category date sub_category utcnow
    simp [add_expense]
  · intro s expense_id
    unfold delete_expense
    split
    · exact List.Sublist.refl _
    · exact List.filter_sublist _
  · intro s expense_id a c sc d
    rw [update_rows_eq_map]
    apply List.map_congr_left
    intro r _
    unfold overwrite
    split <;> rfl

/-- Claim C2 counterexample: in this implementation the `date` parameter
of `add_expense` is not optional — no parameter named "date" in the
tool's signature is non-required, so a call cannot omit it and no
defaulting to the current date can occur. -/
theorem add_date_param_not_optional :
    ¬ ∃ p ∈ add_expense_params, p.name = "date" ∧ p.required = false := by
  decide

/-- Claim C2 (amended): the `date` parameter of `add_expense` is required
(it has no default), and the inserted row's date field is exactly the
supplied date string — no substitution of the current date takes
place. -/
theorem add_date_required_stored_verbatim :
    (add_expense_params.find? fun p => p.name == "date")
      = some { name := "date", required := true } ∧
    ∀ (s : Store) (amount : Rat) (category date sub_category utcnow : String),
      ((add_expense s amount category date sub_category utcnow).fst.rows.map
          fun r => r.date)
        = (s.rows.map fun r => r.date) ++ [date] := by
  refine ⟨by decide, ?_⟩
  intro s amount category date sub_category utcnow
  simp [add_expense]

/-- Claim C7: adding an expense to the empty store and then listing
returns exactly one record whose amount, category (stored verbatim, as
this implementation does not case-normalize), sub_category and date equal
the supplied values, with generated id 1 (non-null); in particular
add(12.5, "food", "2024-01-15") then list contains a record with amount
12.5, category "food", date "2024-01-15". -/
theorem add_list_roundtrip :
    (∀ (amount : Rat) (category date sub_category utcnow : String),
      (listing_expenses
          (add_expense init_db amount category date sub_category utcnow).fst).count
        = 1 ∧
      (listing_expenses
          (add_expense init_db amount category date sub_category utcnow).fst).expenses
        = [{ id := 1, amount := amount, category := category,
             sub_category := sub_category, date := date,
             created_at := utcnow }] ∧
      (add_expense init_db amount category date sub_category utcnow).snd.expense_id
        = 1) ∧
    ∃ r ∈ (listing_expenses
        (add_expense init_db 12.5 "food" "2024-01-15" "" "2024-01-15T00:00:00").fst).expenses,
      r.amount = 12.5 ∧ r.category = "food" ∧ r.date = "2024-01-15" := by
  constructor
  · intro amount category date sub_category utcnow
    refine ⟨?_, ?_, rfl⟩ <;> simp [add_expense, listing_expenses, init_db]
  · refine ⟨{ id := 1, amount := 12.5, category := "food", sub_category := "",
              date := "2024-01-15", created_at := "2024-01-15T00:00:00" },
            ?_, rfl, rfl, rfl⟩
    simp [add_expense, listing_expenses, init_db]

/-- The `ORDER BY date DESC` comparator is transitive. -/
theorem dateDesc_trans : ∀ a b c : Expense,
    dateDesc a b = true → dateDesc b c = true → dateDesc a c = true := by
  intro a b c hab hbc
  simp only [dateDesc, decide_eq_true_eq] at hab hbc ⊢
  exact le_trans hbc hab

/-- The `ORDER BY date DESC` comparator is total. -/
theorem dateDesc_total : ∀ a b : Expense,
    (dateDesc a b || dateDesc b a) = true := by
  intro a b
  simp only [dateDesc, Bool.or_eq_true, decide_eq_true_eq]
  exact le_total b.date a.date

/-- Claim C6: `listing_expenses` returns every stored record (the count
equals the table size and the returned sequence is a permutation of the
table), ordered by date in descending lexicographic order; records
sharing a date keep their insertion order (any block of equal-date rows,
taken in rowid order, survives as a subsequence of the output); and each
successful add grows the table by exactly one record, so the count after
N adds is N. -/
theorem listing_all_rows_date_desc_stable :
    (∀ s : Store,
      (listing_expenses s).count = s.rows.length ∧
      (listing_expenses s).expenses.Perm s.rows ∧
      (listing_expenses s).expenses.Pairwise (fun a b => b.date ≤ a.date) ∧
      ∀ l : List Expense, l.Pairwise (fun a b => a.date = b.date) →
        l.Sublist s.rows → l.Sublist (listing_expenses s).expenses) ∧
    (∀ (s : Store) (amount : Rat) (category date sub_category utcnow : String),
      (add_expense s amount category date sub_category utcnow).fst.rows.length
        = s.rows.length + 1) := by
  constructor
  · intro s
    refine ⟨?_, ?_, ?_, ?_⟩
    · simp [listing_expenses]
    · simpa [listing_expenses] using List.mergeSort_perm s.rows dateDesc
    · have h := List.sorted_mergeSort dateDesc_trans dateDesc_total s.rows
      simp only [listing_expenses]
      exact h.imp (by intro a b hab; simpa [dateDesc] using hab)
    · intro l hl hsub
      have hl' : l.Pairwise fun a b => dateDesc a b = true :=
        hl.imp (by intro a b hab; simp [dateDesc, le_of_eq hab.symm])
      simpa [listing_expenses] using
        List.sublist_mergeSort dateDesc_trans dateDesc_total hl' hsub
  · intro s amount category date sub_category utcnow
    simp [add_expense]

/-- Concrete instance of claim C6's stability clause: two rows sharing
date "2024-01-01", inserted as ids 2 then 3 after a later-dated id 1,
appear in the listing still in insertion order. -/
theorem listing_all_rows_date_desc_stable_witness :
    List.Sublist
      [{ id := 2, amount := 2, category := "b", sub_category := "",
         date := "2024-01-01", created_at := "t2" },
       { id := 3, amount := 3, category := "c", sub_category := "",
         date := "2024-01-01", created_at := "t3" }]
      (listing_expenses
        { rows := [{ id := 1, amount := 1, category := "a", sub_category := "",
                     date := "2024-01-02", created_at := "t1" },
                   { id := 2, amount := 2, category := "b", sub_category := "",
                     date := "2024-01-01", created_at := "t2" },
                   { id := 3, amount := 3, category := "c", sub_category := "",
                     date := "2024-01-01", created_at := "t3" }],
          nextId := 4 }).expenses :=
  (listing_all_rows_date_desc_stable.1 _).2.2.2 _
    (by simp)
    (List.Sublist.cons _ (List.Sublist.refl _))

end ExpenseServer
